import Mathlib

/-!
Verification of the portfolio single-page application (repository
Mohamed-Rabiaa/my-portfolio) against its natural-language specification.

The frontend views are shallowly embedded as explicit state machines:
each view is a state record, a step function from events (mount, fetch
settlement, user clicks) to a new state together with the list of HTTP
requests issued by that transition, and a pure render function.  JavaScript
values that may be `undefined`/`null` are embedded as `Option`/dedicated
inductives, and JavaScript behaviours (Date coercion, `filter(Boolean)`,
`new Set` spreading, `Math.ceil`) are translated operation by operation
from the source files under `frontend/src`.
-/

set_option linter.unusedVariables false

/-! ## JavaScript date model (Portfolio.jsx `formatDate`, lines 38-43)

`formatDate` calls `new Date(dateString).toLocaleDateString('en-US',
{year: 'numeric', month: 'long'})`.  We model the `Date` constructor as a
partial map to an epoch-milliseconds value (`none` = Invalid Date): the
constructor coerces `null` to `+0` (a valid date, epoch 0) and `undefined`
to `NaN` (Invalid Date); strings go through `Date.parse`, modelled here
for the ISO 8601 subset the API emits (date-only `YYYY-MM-DD` and
date-time `YYYY-MM-DDTHH:MM:SSZ`, both UTC); every other string is
treated as unparsable.  `toLocaleDateString` on an Invalid Date returns
the literal string `"Invalid Date"`; on a valid date it formats the
month name and year (the model fixes the UTC timezone). -/

/-- A JavaScript value in an argument position that may be a string,
`null`, or `undefined`. -/
inductive JsVal where
  | undef
  | null
  | str (s : String)
deriving DecidableEq, Repr

def monthNames : List String :=
  ["January", "February", "March", "April", "May", "June",
   "July", "August", "September", "October", "November", "December"]

def isLeapYear (y : Int) : Bool :=
  (y % 4 == 0 && y % 100 != 0) || (y % 400 == 0)

def daysInMonth (y : Int) (m : Nat) : Nat :=
  if m = 2 then (if isLeapYear y then 29 else 28)
  else if m = 4 ∨ m = 6 ∨ m = 9 ∨ m = 11 then 30
  else 31

/-- Days from the epoch 1970-01-01 of a proleptic-Gregorian civil date
(standard civil-from-days conversion, used by every Date implementation). -/
def daysFromCivil (y : Int) (m d : Nat) : Int :=
  let yAdj := y - (if m ≤ 2 then 1 else 0)
  let era := Int.fdiv yAdj 400
  let yoe := yAdj - era * 400
  let mp : Int := if m > 2 then (m : Int) - 3 else (m : Int) + 9
  let doy := (153 * mp + 2) / 5 + (d : Int) - 1
  let doe := yoe * 365 + yoe / 4 - yoe / 100 + doy
  era * 146097 + doe - 719468

/-- Civil date `(year, month, day)` of a day count from the epoch
(inverse of `daysFromCivil`). -/
def civilFromDays (z0 : Int) : Int × Nat × Nat :=
  let z := z0 + 719468
  let era := Int.fdiv z 146097
  let doe := z - era * 146097
  let yoe := (doe - doe / 1460 + doe / 36524 - doe / 146096) / 365
  let y := yoe + era * 400
  let doy := doe - (365 * yoe + yoe / 4 - yoe / 100)
  let mp := (5 * doy + 2) / 153
  let d := doy - (153 * mp + 2) / 5 + 1
  let m := mp + (if mp < 10 then 3 else -9)
  (y + (if m ≤ 2 then 1 else 0), m.toNat, d.toNat)

def digitVal (c : Char) : Option Nat :=
  if c.isDigit then some (c.toNat - 48) else none

def num2 (a b : Char) : Option Nat := do
  let x ← digitVal a
  let y ← digitVal b
  pure (10 * x + y)

def num4 (a b c d : Char) : Option Nat := do
  let x ← num2 a b
  let y ← num2 c d
  pure (100 * x + y)

def msPerDay : Int := 86400000

/-- Epoch milliseconds of a civil date, provided it is in range
(months 1-12, day within the month); out-of-range components make the
ISO string unparsable, as in `Date.parse`. -/
def dateMs (y : Int) (mo d : Nat) : Option Int :=
  if 1 ≤ mo ∧ mo ≤ 12 ∧ 1 ≤ d ∧ d ≤ daysInMonth y mo then
    some (daysFromCivil y mo d * msPerDay)
  else none

/-- Models `Date.parse` on the ISO 8601 subset the backend emits:
`YYYY-MM-DD` (UTC midnight) and `YYYY-MM-DDTHH:MM:SSZ`.  Any other
string — in particular the empty string — is unparsable (`NaN`). -/
def parseDate (s : String) : Option Int :=
  match s.data with
  | [y1, y2, y3, y4, '-', m1, m2, '-', d1, d2] => do
      let y ← num4 y1 y2 y3 y4
      let mo ← num2 m1 m2
      let d ← num2 d1 d2
      dateMs y mo d
  | [y1, y2, y3, y4, '-', m1, m2, '-', d1, d2, 'T',
     h1, h2, ':', mi1, mi2, ':', s1, s2, 'Z'] => do
      let y ← num4 y1 y2 y3 y4
      let mo ← num2 m1 m2
      let d ← num2 d1 d2
      let hh ← num2 h1 h2
      let mi ← num2 mi1 mi2
      let ss ← num2 s1 s2
      if hh < 24 ∧ mi < 60 ∧ ss < 60 then
        (dateMs y mo d).map (fun base => base + ((hh * 3600 + mi * 60 + ss : Nat) : Int) * 1000)
      else none
  | _ => none

/-- Models `new Date(v)` for the values `formatDate` is ever handed:
`undefined` gives an Invalid Date (`none`); `null` is coerced by
`ToNumber` to `+0`, i.e. a valid date at epoch 0; a string goes through
`Date.parse`. -/
def jsNewDate : JsVal → Option Int
  | JsVal.undef => none
  | JsVal.null => some 0
  | JsVal.str s => parseDate s

/-- `formatDate` from `frontend/src/pages/Portfolio.jsx` lines 38-43:
`new Date(dateString).toLocaleDateString('en-US', {year: 'numeric',
month: 'long'})`, with the locale timezone fixed to UTC. -/
def formatDate (v : JsVal) : String :=
  match jsNewDate v with
  | none => "Invalid Date"
  | some t =>
      let p := civilFromDays (Int.fdiv t msPerDay)
      monthNames.getD (p.2.1 - 1) "" ++ " " ++ toString p.1

/-! ## Portfolio view (`frontend/src/pages/Portfolio.jsx`)

State hooks (lines 6-9): `projects`, `filteredProjects`,
`selectedCategory` (initially `'all'`), `loading` (initially `true`).
The mount effect (lines 11-25) issues one GET for the project list; on
success it stores `response.data.results` into both `projects` and
`filteredProjects` and clears `loading`; on failure it logs the error
and clears `loading`.  `console.error` output is modelled as a `log`
field of the state. -/

/-- A project record as consumed by the Portfolio view.  `category` is
`Option String`: `none` embeds a `null`/`undefined`/absent category. -/
structure Project where
  id : Nat
  title : String
  category : Option String
  featured : Bool
  createdAt : JsVal
deriving DecidableEq, Repr

structure PortfolioState where
  projects : List Project
  filteredProjects : List Project
  selectedCategory : String
  loading : Bool
  log : List String
deriving DecidableEq, Repr

/-- Initial hook values, Portfolio.jsx lines 6-9. -/
def portfolioInit : PortfolioState :=
  { projects := []
    filteredProjects := []
    selectedCategory := "all"
    loading := true
    log := [] }

inductive PRequest where
  | getProjects
deriving DecidableEq, Repr

inductive PEvent where
  | mount
  | fetchSuccess (results : List Project)
  | fetchFailure (err : String)
  | clickFilter (key : String)
deriving DecidableEq, Repr

/-- Models `projects.map(project => project.category).filter(Boolean)`:
mapping to the category field and dropping the falsy values, which for
this field are `null`, `undefined`, and the empty string. -/
def filterBoolean (l : List (Option String)) : List String :=
  l.filterMap (fun v =>
    match v with
    | some s => if s = "" then none else some s
    | none => none)

/-- Models spreading a value list through `new Set`: keep the first
occurrence of each element, in insertion order, tracking the set of
elements already seen. -/
def newSetAux : List String → List String → List String
  | _, [] => []
  | seen, x :: xs =>
      if x ∈ seen then newSetAux seen xs else x :: newSetAux (x :: seen) xs

def newSet (l : List String) : List String := newSetAux [] l

/-- `categories` from Portfolio.jsx line 27:
`['all', ...new Set(projects.map(project => project.category).filter(Boolean))]`. -/
def categories (projects : List Project) : List String :=
  "all" :: newSet (filterBoolean (projects.map Project.category))

/-- `filterProjects` from Portfolio.jsx lines 29-36: set
`selectedCategory`; on `'all'` restore the full `projects` list,
otherwise keep the projects whose `category` strictly equals the key. -/
def filterProjects (s : PortfolioState) (category : String) : PortfolioState :=
  { s with
    selectedCategory := category
    filteredProjects :=
      if category = "all" then s.projects
      else s.projects.filter (fun project => decide (project.category = some category)) }

/-- One event-driven transition of the Portfolio view; the second
component lists the HTTP requests issued by the transition. -/
def portfolioStep : PortfolioState → PEvent → PortfolioState × List PRequest
  | s, PEvent.mount => (s, [PRequest.getProjects])
  | s, PEvent.fetchSuccess results =>
      ({ s with projects := results, filteredProjects := results, loading := false }, [])
  | s, PEvent.fetchFailure err =>
      ({ s with loading := false,
                log := ("Error fetching projects: " ++ err) :: s.log }, [])
  | s, PEvent.clickFilter key => (filterProjects s key, [])

/-- The state of the Portfolio view immediately after its initial fetch
resolves with `results`. -/
def portfolioAfterFetch (results : List Project) : PortfolioState :=
  (portfolioStep portfolioInit (PEvent.fetchSuccess results)).1

/-- What the grid section of a list view displays: the loading spinner,
the empty-state message, or the item grid (Portfolio.jsx lines 45-54 and
89-150). -/
inductive ListView where
  | loadingView
  | emptyState (msg : String)
  | grid (items : List Project)
deriving DecidableEq, Repr

def portfolioRender (s : PortfolioState) : ListView :=
  if s.loading then ListView.loadingView
  else if s.filteredProjects.isEmpty then
    ListView.emptyState "No projects found for the selected category."
  else ListView.grid s.filteredProjects

/-! ## Specification-side filter keys (spec §4.1 `computeFilterKeys`)

For the refinement claim about `computeFilterKeys`, the spec's words —
"collects the set of distinct non-empty values of the filter field
across `items`, in first-seen order, prefixed with the sentinel `all`" —
are translated independently of the source: walk the item list once,
appending each non-empty, not-yet-collected category value. -/

/-- Modelled from the spec (§4.1): distinct non-empty filter-field
values in first-seen order, prefixed with the sentinel. -/
def specFilterKeys (items : List Project) : List String :=
  "all" ::
    items.foldl
      (fun acc p =>
        match p.category with
        | none => acc
        | some v => if v = "" then acc else if v ∈ acc then acc else acc ++ [v])
      []

/-! ## Raw-value Portfolio model (response-shape mismatch, spec §6)

The success path of the fetch effect stores `response.data.results`
verbatim (`setProjects(response.data.results)`), whatever the shape of
the body: when `results` is absent or not an array the state holds a
non-array value.  Rendering then evaluates
`projects.map(...)` (line 27) and `filteredProjects.length` (line 91),
each of which throws a `TypeError` on a non-array; the thrown exception
is embedded as `Except.error`. -/

/-- A JavaScript value stored where an array is expected: either an
actual array, or a non-array value (`undefined` when `results` is
absent, or any value without `.map`). -/
inductive JsArr where
  | badValue
  | arr (l : List Project)
deriving DecidableEq, Repr

structure RawPortfolioState where
  projects : JsArr
  filteredProjects : JsArr
  loading : Bool
  log : List String
deriving DecidableEq, Repr

def rawPortfolioInit : RawPortfolioState :=
  { projects := JsArr.badValue
    filteredProjects := JsArr.badValue
    loading := true
    log := [] }

/-- The success branch of `fetchProjects` (Portfolio.jsx lines 14-17)
run on a 200 response whose `data.results` is `results`: the value is
stored verbatim, no shape check occurs, and the `catch` branch (which
would log) is not taken. -/
def rawFetchSuccess (s : RawPortfolioState) (results : JsArr) : RawPortfolioState :=
  { s with projects := results, filteredProjects := results, loading := false }

/-- The raw initial state records empty arrays (`useState([])`). -/
def rawPortfolioMounted : RawPortfolioState :=
  { rawPortfolioInit with projects := JsArr.arr [], filteredProjects := JsArr.arr [] }

/-- Evaluating `['all', ...new Set(projects.map(...).filter(Boolean))]`
on the stored value: on a non-array, `projects.map` throws. -/
def rawCategories : JsArr → Except String (List String)
  | JsArr.badValue => Except.error "TypeError: projects.map is not a function"
  | JsArr.arr l => Except.ok (categories l)

/-- Rendering the Portfolio view body: the component body computes
`categories` before the JSX (line 27), then the grid section reads
`filteredProjects.length` (line 91); either throws on a non-array. -/
def rawPortfolioRender (s : RawPortfolioState) : Except String ListView :=
  if s.loading then Except.ok ListView.loadingView
  else
    match rawCategories s.projects with
    | Except.error e => Except.error e
    | Except.ok _ =>
        match s.filteredProjects with
        | JsArr.badValue =>
            Except.error "TypeError: cannot read properties of undefined"
        | JsArr.arr l =>
            Except.ok (if l.isEmpty then
              ListView.emptyState "No projects found for the selected category."
            else ListView.grid l)

/-! ## Blog view (`frontend/src/pages/Blog.jsx`)

State hooks (lines 7-10): `posts`, `loading` (initially `true`),
`currentPage` (initially 1), `totalPages` (initially 1).  The fetch
effect (lines 12-26) runs on mount and whenever `currentPage` changes;
on success it stores `response.data.results` and sets
`totalPages = Math.ceil(response.data.count / 10)`; `Math.ceil` on a
natural `count` is embedded as `(count + 9) / 10` in natural division.
`handlePageChange` (lines 41-44) sets `currentPage`, which re-triggers
the fetch for that page. -/

structure Post where
  id : Nat
  title : String
  slug : String
deriving DecidableEq, Repr

structure BlogState where
  posts : List Post
  loading : Bool
  currentPage : Nat
  totalPages : Nat
  log : List String
deriving DecidableEq, Repr

/-- Initial hook values, Blog.jsx lines 7-10. -/
def blogInit : BlogState :=
  { posts := []
    loading := true
    currentPage := 1
    totalPages := 1
    log := [] }

/-- `Math.ceil(count / 10)` on a natural count. -/
def ceilCountDiv10 (count : Nat) : Nat := (count + 9) / 10

inductive BRequest where
  | getPosts (page : Nat)
deriving DecidableEq, Repr

inductive BEvent where
  | mount
  | fetchSuccess (results : List Post) (count : Nat)
  | fetchFailure (err : String)
  | clickPage (page : Nat)
deriving DecidableEq, Repr

def blogStep : BlogState → BEvent → BlogState × List BRequest
  | s, BEvent.mount => (s, [BRequest.getPosts s.currentPage])
  | s, BEvent.fetchSuccess results count =>
      ({ s with posts := results, totalPages := ceilCountDiv10 count, loading := false }, [])
  | s, BEvent.fetchFailure err =>
      ({ s with loading := false,
                log := ("Error fetching blog posts: " ++ err) :: s.log }, [])
  | s, BEvent.clickPage page => ({ s with currentPage := page }, [BRequest.getPosts page])

/-- The pagination bar as rendered (Blog.jsx lines 123-153): Previous
is `disabled={currentPage === 1}`, Next is
`disabled={currentPage === totalPages}`, and one numbered button per
page. -/
structure PaginationControls where
  prevDisabled : Bool
  nextDisabled : Bool
  pageButtons : List Nat
deriving DecidableEq, Repr

/-- Whether and how the pagination bar renders: nothing while loading,
nothing on the no-posts branch (lines 75-79), and nothing unless
`totalPages > 1` (line 123). -/
def blogPagination (s : BlogState) : Option PaginationControls :=
  if s.loading then none
  else if s.posts.isEmpty then none
  else if s.totalPages > 1 then
    some { prevDisabled := decide (s.currentPage = 1)
           nextDisabled := decide (s.currentPage = s.totalPages)
           pageButtons := (List.range s.totalPages).map (· + 1) }
  else none

/-! ## Contact view (`frontend/src/pages/Contact.jsx`)

State hooks (lines 42-50): `formData` (four controlled fields),
`isSubmitting` (initially `false`), `submitStatus` (initially `null`).
`handleSubmit` (lines 73-93) sets `isSubmitting=true` and
`submitStatus=null`, then POSTs `formData`; on success it sets
`submitStatus='success'` and clears the fields, on failure it logs and
sets `submitStatus='error'`; `finally` restores `isSubmitting=false`.
The submit button (lines 271-277) carries `disabled={isSubmitting}`, so
a click while a submission is in flight never reaches `handleSubmit` —
the browser drops activation events on a disabled control.  The model
carries an `inFlight` counter of issued-but-unsettled POST requests to
express the single-in-flight invariant. -/

structure ContactForm where
  name : String
  email : String
  subject : String
  message : String
deriving DecidableEq, Repr

def emptyForm : ContactForm :=
  { name := "", email := "", subject := "", message := "" }

inductive CField where
  | name
  | email
  | subject
  | message
deriving DecidableEq, Repr

/-- `handleChange` (lines 66-71): overwrite the named field, keep the
rest (`{...formData, [e.target.name]: e.target.value}`). -/
def setField (f : ContactForm) : CField → String → ContactForm
  | CField.name, v => { f with name := v }
  | CField.email, v => { f with email := v }
  | CField.subject, v => { f with subject := v }
  | CField.message, v => { f with message := v }

structure ContactState where
  formData : ContactForm
  isSubmitting : Bool
  submitStatus : Option Bool
  inFlight : Nat
  log : List String
deriving DecidableEq, Repr

/-- Initial hook values, Contact.jsx lines 42-50; `submitStatus` is
`none` for `null`, `some true` for `'success'`, `some false` for
`'error'`. -/
def contactInit : ContactState :=
  { formData := emptyForm
    isSubmitting := false
    submitStatus := none
    inFlight := 0
    log := [] }

inductive CRequest where
  | postMessage (data : ContactForm)
deriving DecidableEq, Repr

inductive CEvent where
  | changeField (f : CField) (v : String)
  | submitClick
  | postSuccess
  | postFailure (err : String)
deriving DecidableEq, Repr

def contactStep : ContactState → CEvent → ContactState × List CRequest
  | s, CEvent.changeField f v => ({ s with formData := setField s.formData f v }, [])
  | s, CEvent.submitClick =>
      if s.isSubmitting then (s, [])
      else
        ({ s with isSubmitting := true, submitStatus := none,
                  inFlight := s.inFlight + 1 },
         [CRequest.postMessage s.formData])
  | s, CEvent.postSuccess =>
      ({ s with submitStatus := some true, formData := emptyForm,
                isSubmitting := false, inFlight := s.inFlight - 1 }, [])
  | s, CEvent.postFailure err =>
      ({ s with submitStatus := some false, isSubmitting := false,
                inFlight := s.inFlight - 1,
                log := ("Error sending message: " ++ err) :: s.log }, [])

/-- The submit button attribute `disabled={isSubmitting}` (line 274). -/
def submitDisabled (s : ContactState) : Bool := s.isSubmitting

/-- The error banner (lines 213-217) renders iff `submitStatus === 'error'`. -/
def errorBannerShown (s : ContactState) : Bool := decide (s.submitStatus = some false)

/-- The success banner (lines 207-211) renders iff `submitStatus === 'success'`. -/
def successBannerShown (s : ContactState) : Bool := decide (s.submitStatus = some true)

/-- The states the Contact view can actually be in: starting from the
initial state, any field edit or submit click may occur at any time,
while a POST settles (successfully or not) only when a request is
actually outstanding. -/
inductive CReachable : ContactState → Prop where
  | init : CReachable contactInit
  | change (s : ContactState) (f : CField) (v : String) :
      CReachable s → CReachable (contactStep s (CEvent.changeField f v)).1
  | click (s : ContactState) :
      CReachable s → CReachable (contactStep s CEvent.submitClick).1
  | settleOk (s : ContactState) :
      CReachable s → s.inFlight ≠ 0 → CReachable (contactStep s CEvent.postSuccess).1
  | settleErr (s : ContactState) (err : String) :
      CReachable s → s.inFlight ≠ 0 → CReachable (contactStep s (CEvent.postFailure err)).1

/-! ## Home view (`Home.jsx`, v2 with admin profile; Contact.jsx sources
lines 374-397 of the concatenated page sources)

`fetchData` awaits four GETs one after another inside a single
`try { ... } catch`: admin profile, skills (`slice(0, 6)`), projects
(`filter(featured).slice(0, 3)`), blog posts (`slice(0, 3)`), each
stored into its own state slice as soon as it resolves.  A rejection of
any await jumps to the shared `catch`, so no later request is issued.
The environment (`HomeEnv`) fixes how each request would settle
(`none` = rejection); the function returns the final state and the
requests actually issued, in order. -/

structure Skill where
  id : Nat
  name : String
deriving DecidableEq, Repr

structure AdminProfile where
  firstName : String
  lastName : String
  bio : Option String
deriving DecidableEq, Repr

structure HomeState where
  adminProfile : Option AdminProfile
  skills : List Skill
  featuredProjects : List Project
  recentPosts : List Post
  log : List String
deriving DecidableEq, Repr

def homeInit : HomeState :=
  { adminProfile := none
    skills := []
    featuredProjects := []
    recentPosts := []
    log := [] }

inductive HRequest where
  | getAdminProfile
  | getSkills
  | getProjects
  | getPosts
deriving DecidableEq, Repr

/-- How each of the four Home requests would settle: `none` embeds a
rejected promise. -/
structure HomeEnv where
  profileResp : Option AdminProfile
  skillsResp : Option (List Skill)
  projectsResp : Option (List Project)
  postsResp : Option (List Post)

/-- `fetchData` of the Home view, run to completion against `env`:
sequential awaits inside one `try`; the first rejection jumps to
`catch` (which logs) and every request after it is never issued. -/
def fetchData (env : HomeEnv) : HomeState × List HRequest :=
  match env.profileResp with
  | none => ({ homeInit with log := ["Error fetching data:"] }, [HRequest.getAdminProfile])
  | some prof =>
      match env.skillsResp with
      | none =>
          ({ homeInit with adminProfile := some prof, log := ["Error fetching data:"] },
           [HRequest.getAdminProfile, HRequest.getSkills])
      | some sk =>
          match env.projectsResp with
          | none =>
              ({ homeInit with adminProfile := some prof, skills := sk.take 6,
                               log := ["Error fetching data:"] },
               [HRequest.getAdminProfile, HRequest.getSkills, HRequest.getProjects])
          | some pr =>
              match env.postsResp with
              | none =>
                  ({ homeInit with adminProfile := some prof, skills := sk.take 6,
                                   featuredProjects := (pr.filter Project.featured).take 3,
                                   log := ["Error fetching data:"] },
                   [HRequest.getAdminProfile, HRequest.getSkills, HRequest.getProjects,
                    HRequest.getPosts])
              | some po =>
                  ({ homeInit with adminProfile := some prof, skills := sk.take 6,
                                   featuredProjects := (pr.filter Project.featured).take 3,
                                   recentPosts := po.take 3 },
                   [HRequest.getAdminProfile, HRequest.getSkills, HRequest.getProjects,
                    HRequest.getPosts])

/-! ## Helper lemmas -/

/-- Folding the per-item key collector over the item list is the same
as folding the plain collector over the truthy category values. -/
theorem foldl_over_items (items : List Project) :
    ∀ acc : List String,
      items.foldl
        (fun acc p =>
          match p.category with
          | none => acc
          | some v => if v = "" then acc else if v ∈ acc then acc else acc ++ [v]) acc
      = (filterBoolean (items.map Project.category)).foldl
          (fun acc v => if v ∈ acc then acc else acc ++ [v]) acc := by
  induction items with
  | nil => intro acc; rfl
  | cons p items ih =>
      intro acc
      cases hc : p.category with
      | none => simp [filterBoolean, List.filterMap_cons, hc, ih,
                      ← filterBoolean.eq_def]
      | some v =>
          by_cases hv : v = ""
          · subst hv
            simp [filterBoolean, List.filterMap_cons, hc, ih, ← filterBoolean.eq_def]
          · by_cases hm : v ∈ acc
            · simp [filterBoolean, List.filterMap_cons, hc, hv, hm, ih,
                    ← filterBoolean.eq_def]
            · simp [filterBoolean, List.filterMap_cons, hc, hv, hm, ih,
                    ← filterBoolean.eq_def]

/-- `newSetAux` depends on the seen accumulator only through membership. -/
theorem newSetAux_congr (l : List String) :
    ∀ s₁ s₂ : List String, (∀ y, y ∈ s₁ ↔ y ∈ s₂) →
      newSetAux s₁ l = newSetAux s₂ l := by
  induction l with
  | nil => intro s₁ s₂ h; rfl
  | cons x xs ih =>
      intro s₁ s₂ h
      simp only [newSetAux]
      by_cases hx : x ∈ s₁
      · rw [if_pos hx, if_pos ((h x).1 hx), ih _ _ h]
      · rw [if_neg hx, if_neg (fun hh => hx ((h x).2 hh)),
            ih (x :: s₁) (x :: s₂) (fun y => by simp [h y])]

/-- The append-collecting fold is insertion-ordered deduplication
relative to the elements already collected. -/
theorem foldl_collect_eq_newSetAux (l : List String) :
    ∀ acc : List String,
      l.foldl (fun acc v => if v ∈ acc then acc else acc ++ [v]) acc
        = acc ++ newSetAux acc l := by
  induction l with
  | nil => intro acc; simp [newSetAux]
  | cons x xs ih =>
      intro acc
      simp only [List.foldl_cons, newSetAux]
      by_cases hx : x ∈ acc
      · rw [if_pos hx, if_pos hx, ih]
      · rw [if_neg hx, if_neg hx, ih (acc ++ [x]),
            newSetAux_congr xs (acc ++ [x]) (x :: acc) (fun y => by simp [or_comm])]
        simp

/-- The source `categories` computation refines the spec's
`computeFilterKeys` description. -/
theorem categories_eq_specFilterKeys (items : List Project) :
    categories items = specFilterKeys items := by
  unfold categories specFilterKeys newSet
  rw [foldl_over_items, foldl_collect_eq_newSetAux]
  simp

/-- `(count + 9) / 10` is the ceiling of the rational `count / 10`. -/
theorem ceilCountDiv10_eq (c : Nat) : ceilCountDiv10 c = ⌈(c : ℚ) / 10⌉₊ := by
  unfold ceilCountDiv10
  rcases Nat.eq_zero_or_pos c with h | h
  · subst h; simp
  · have hne : (c + 9) / 10 ≠ 0 := by
      intro h0
      have h1 : (c + 9) % 10 + 10 * ((c + 9) / 10) = c + 9 := Nat.mod_add_div _ _
      have h2 : (c + 9) % 10 < 10 := Nat.mod_lt _ (by norm_num)
      omega
    rw [eq_comm, Nat.ceil_eq_iff hne]
    generalize hg : (c + 9) / 10 = n at hne
    have h1 : (c + 9) % 10 + 10 * n = c + 9 := by rw [← hg]; exact Nat.mod_add_div _ _
    have h2 : (c + 9) % 10 < 10 := Nat.mod_lt _ (by norm_num)
    have hn1 : 1 ≤ n := by omega
    constructor
    · rw [lt_div_iff₀ (by norm_num : (0:ℚ) < 10), Nat.cast_sub hn1]
      have hq : ((10 * n : ℕ) : ℚ) < ((c + 10 : ℕ) : ℚ) :=
        by exact_mod_cast (by omega : 10 * n < c + 10)
      push_cast at hq ⊢
      linarith
    · rw [div_le_iff₀ (by norm_num : (0:ℚ) < 10)]
      have hq : ((c : ℕ) : ℚ) ≤ ((10 * n : ℕ) : ℚ) :=
        by exact_mod_cast (by omega : c ≤ 10 * n)
      push_cast at hq ⊢
      linarith

/-- Invariant of every reachable Contact state: at most one POST is
outstanding, and the busy flag holds exactly while one is. -/
theorem contact_invariant (s : ContactState) (h : CReachable s) :
    s.inFlight ≤ 1 ∧ (s.isSubmitting = true ↔ s.inFlight = 1) := by
  induction h with
  | init => simp [contactInit]
  | change s f v hs ih => simpa [contactStep] using ih
  | click s hs ih =>
      obtain ⟨h1, h2⟩ := ih
      by_cases hb : s.isSubmitting
      · simpa [contactStep, hb] using ⟨h1, h2.mp hb⟩
      · have h0 : s.inFlight = 0 := by
          rcases Nat.lt_or_ge s.inFlight 1 with hlt | hge
          · omega
          · exact absurd (h2.mpr (by omega)) hb
        simp [contactStep, hb, h0]
  | settleOk s hs hnz ih =>
      obtain ⟨h1, h2⟩ := ih
      have : s.inFlight = 1 := by omega
      simp [contactStep, this]
  | settleErr s err hs hnz ih =>
      obtain ⟨h1, h2⟩ := ih
      have : s.inFlight = 1 := by omega
      simp [contactStep, this]

/-! ## Concrete fixtures for scenario checks and witnesses -/

def pNull : Project :=
  { id := 1, title := "Null category project", category := none,
    featured := false, createdAt := JsVal.null }

def pWeb : Project :=
  { id := 2, title := "Web project", category := some "web",
    featured := true, createdAt := JsVal.str "2024-01-15T10:30:00Z" }

def post1 : Post := { id := 1, title := "First post", slug := "first-post" }

/-- A Blog state on page 1 of 3 with a post list on screen. -/
def sPag : BlogState :=
  { posts := [post1], loading := false, currentPage := 1, totalPages := 3, log := [] }

/-- A Blog state whose post list fits on one page. -/
def sOnePage : BlogState :=
  { posts := [post1], loading := false, currentPage := 1, totalPages := 1, log := [] }

/-- The pagination bar `sPag` renders. -/
def cPag : PaginationControls :=
  { prevDisabled := true, nextDisabled := false, pageButtons := [1, 2, 3] }

/-- The Contact state after typing a subject and clicking submit:
one POST is in flight. -/
def typedSubmitting : ContactState :=
  (contactStep
    (contactStep contactInit (CEvent.changeField CField.subject "Project inquiry")).1
    CEvent.submitClick).1

/-- A Home environment in which only the admin-profile request fails. -/
def homeEnvProfileFails : HomeEnv :=
  { profileResp := none
    skillsResp := some [{ id := 1, name := "Python" }]
    projectsResp := some [pWeb]
    postsResp := some [post1] }

/-! ## Claims -/

/-- C1: for a fetched project list and any filter key derived from it,
applying that filter and then the sentinel "all" returns the visible
items to exactly the fetched list, in the original order. -/
theorem C1_filter_roundtrip (items : List Project) (key : String)
    (h : key ∈ categories items) :
    ((portfolioStep
        ((portfolioStep (portfolioAfterFetch items) (PEvent.clickFilter key)).1)
        (PEvent.clickFilter "all")).1).filteredProjects = items := by
  simp [portfolioStep, portfolioAfterFetch, portfolioInit, filterProjects]

theorem C1_filter_roundtrip_witness :
    "web" ∈ categories [pNull, pWeb] ∧
    ((portfolioStep
        ((portfolioStep (portfolioAfterFetch [pNull, pWeb]) (PEvent.clickFilter "web")).1)
        (PEvent.clickFilter "all")).1).filteredProjects = [pNull, pWeb] :=
  ⟨by decide, C1_filter_roundtrip [pNull, pWeb] "web" (by decide)⟩

/-- C2: the derived filter keys are the sentinel "all" followed by the
distinct non-empty category values in first-seen order (the source
computation coincides with the spec-worded `specFilterKeys`); a list
holding a null-category item and a "web" item yields exactly
["all", "web"], and the null-category item is still among the visible
items under the "all" filter. -/
theorem C2_computeFilterKeys (items : List Project) :
    categories items = specFilterKeys items ∧
    (categories items).head? = some "all" ∧
    categories [pNull, pWeb] = ["all", "web"] ∧
    pNull ∈ ((portfolioStep (portfolioAfterFetch [pNull, pWeb])
               (PEvent.clickFilter "all")).1).filteredProjects :=
  ⟨categories_eq_specFilterKeys items, rfl, by decide, by decide⟩

/-- C3: the blog list starts on page 1; a response with count `c` sets
totalPages to the ceiling of `c / 10` (3 when `c = 25`); Previous is
disabled exactly on page 1 and Next exactly on the last page; and no
pagination bar renders when totalPages is at most 1. -/
theorem C3_blog_pagination (count : Nat) (results : List Post) (s : BlogState)
    (c : PaginationControls) :
    blogInit.currentPage = 1 ∧
    ((blogStep blogInit (BEvent.fetchSuccess results count)).1.totalPages
       = ⌈(count : ℚ) / 10⌉₊) ∧
    ((blogStep blogInit (BEvent.fetchSuccess results 25)).1.totalPages = 3) ∧
    (blogPagination s = some c →
       (c.prevDisabled = true ↔ s.currentPage = 1) ∧
       (c.nextDisabled = true ↔ s.currentPage = s.totalPages)) ∧
    (s.totalPages ≤ 1 → blogPagination s = none) := by
  refine ⟨rfl, ceilCountDiv10_eq count, rfl, ?_, ?_⟩
  · intro h
    unfold blogPagination at h
    split_ifs at h with h1 h2 h3
    rw [Option.some.injEq] at h
    subst h
    constructor <;> simp
  · intro h
    unfold blogPagination
    split_ifs with h1 h2 h3
    · rfl
    · rfl
    · omega
    · rfl

theorem C3_blog_pagination_witness :
    blogInit.currentPage = 1 ∧
    ((blogStep blogInit (BEvent.fetchSuccess [] 25)).1.totalPages = 3) ∧
    ((cPag.prevDisabled = true ↔ sPag.currentPage = 1) ∧
     (cPag.nextDisabled = true ↔ sPag.currentPage = sPag.totalPages)) ∧
    blogPagination sOnePage = none :=
  ⟨(C3_blog_pagination 25 [] sPag cPag).1,
   (C3_blog_pagination 25 [] sPag cPag).2.2.1,
   (C3_blog_pagination 25 [] sPag cPag).2.2.2.1 (by decide),
   (C3_blog_pagination 25 [] sOnePage cPag).2.2.2.2 (by decide)⟩

/-- C4: a failing initial fetch on the Portfolio view records a
diagnostic, clears the loading flag, leaves the item list empty, issues
no retry request, and the view renders the empty-state message. -/
theorem C4_fetch_failure (err : String) :
    ((portfolioStep portfolioInit (PEvent.fetchFailure err)).1.loading = false) ∧
    ((portfolioStep portfolioInit (PEvent.fetchFailure err)).1.projects = []) ∧
    ((portfolioStep portfolioInit (PEvent.fetchFailure err)).1.log
        = ["Error fetching projects: " ++ err]) ∧
    ((portfolioStep portfolioInit (PEvent.fetchFailure err)).2 = []) ∧
    portfolioRender (portfolioStep portfolioInit (PEvent.fetchFailure err)).1
      = ListView.emptyState "No projects found for the selected category." := by
  refine ⟨rfl, rfl, rfl, rfl, rfl⟩

/-- C5: applying a filter key issues no request, sets the active
filter, derives the visible items from the unchanged item list ("all"
restores it, any other key keeps exactly the items whose category
equals the key), and applying the same key twice yields the same
visible items as applying it once. -/
theorem C5_applyFilter (s : PortfolioState) (key : String) :
    ((portfolioStep s (PEvent.clickFilter key)).2 = []) ∧
    ((portfolioStep s (PEvent.clickFilter key)).1.selectedCategory = key) ∧
    ((portfolioStep s (PEvent.clickFilter key)).1.filteredProjects
       = (if key = "all" then s.projects
          else s.projects.filter (fun p => decide (p.category = some key)))) ∧
    ((portfolioStep (portfolioStep s (PEvent.clickFilter key)).1
        (PEvent.clickFilter key)).1.filteredProjects
       = (portfolioStep s (PEvent.clickFilter key)).1.filteredProjects) := by
  refine ⟨rfl, rfl, rfl, ?_⟩
  simp [portfolioStep, filterProjects]

/-- C6: when the in-flight contact POST fails, the error banner (and
only it) is shown, every entered field value is retained, and the
submit control is re-enabled. -/
theorem C6_submit_failure (s : ContactState) (err : String)
    (h : s.isSubmitting = true) :
    errorBannerShown (contactStep s (CEvent.postFailure err)).1 = true ∧
    successBannerShown (contactStep s (CEvent.postFailure err)).1 = false ∧
    (contactStep s (CEvent.postFailure err)).1.formData = s.formData ∧
    submitDisabled (contactStep s (CEvent.postFailure err)).1 = false := by
  refine ⟨rfl, rfl, rfl, rfl⟩

theorem C6_submit_failure_witness :
    typedSubmitting.isSubmitting = true ∧
    ((contactStep typedSubmitting (CEvent.postFailure "Network Error")).1.formData.subject
       = "Project inquiry") ∧
    errorBannerShown (contactStep typedSubmitting (CEvent.postFailure "Network Error")).1
       = true := by
  refine ⟨by decide, ?_,
          (C6_submit_failure typedSubmitting "Network Error" (by decide)).1⟩
  rw [(C6_submit_failure typedSubmitting "Network Error" (by decide)).2.2.1]
  decide

/-- C7: in every reachable Contact state at most one POST is
outstanding, the submit control is disabled exactly while one is, and a
submit click issues a request exactly when the control is enabled — in
particular, none while it is disabled. -/
theorem C7_single_inflight (s : ContactState) (h : CReachable s) :
    s.inFlight ≤ 1 ∧
    submitDisabled s = decide (s.inFlight = 1) ∧
    (contactStep s CEvent.submitClick).2
      = (if submitDisabled s then [] else [CRequest.postMessage s.formData]) := by
  obtain ⟨h1, h2⟩ := contact_invariant s h
  refine ⟨h1, ?_, ?_⟩
  · by_cases hb : s.isSubmitting
    · simp [submitDisabled, hb, h2.mp hb]
    · have : s.inFlight ≠ 1 := fun hh => hb (h2.mpr hh)
      simp [submitDisabled, hb, this]
  · by_cases hb : s.isSubmitting <;> simp [contactStep, submitDisabled, hb]

theorem C7_single_inflight_witness :
    ((contactStep contactInit CEvent.submitClick).1).inFlight ≤ 1 ∧
    submitDisabled (contactStep contactInit CEvent.submitClick).1
      = decide (((contactStep contactInit CEvent.submitClick).1).inFlight = 1) ∧
    (contactStep (contactStep contactInit CEvent.submitClick).1 CEvent.submitClick).2
      = (if submitDisabled (contactStep contactInit CEvent.submitClick).1 then []
         else [CRequest.postMessage
                 ((contactStep contactInit CEvent.submitClick).1).formData]) :=
  C7_single_inflight _ (CReachable.click contactInit CReachable.init)

/-- C8: run against an environment in which only the admin-profile
request fails, the Home fetch sequence issues no skills, projects, or
posts request at all and leaves those state slices empty: the four
reads are sequential in one try block, not independent. -/
theorem C8_sequential_fetch :
    (fetchData homeEnvProfileFails).2 = [HRequest.getAdminProfile] ∧
    HRequest.getSkills ∉ (fetchData homeEnvProfileFails).2 ∧
    HRequest.getProjects ∉ (fetchData homeEnvProfileFails).2 ∧
    HRequest.getPosts ∉ (fetchData homeEnvProfileFails).2 ∧
    (fetchData homeEnvProfileFails).1.skills = [] ∧
    (fetchData homeEnvProfileFails).1.featuredProjects = [] ∧
    (fetchData homeEnvProfileFails).1.recentPosts = [] := by
  decide

/-- C9: a 200 project-list response whose body has no results array is
stored verbatim; the following render throws a TypeError while deriving
the filter keys and nothing is logged — the view crashes instead of
taking the error path. -/
theorem C9_results_shape_crash :
    rawPortfolioRender (rawFetchSuccess rawPortfolioMounted JsArr.badValue)
      = Except.error "TypeError: projects.map is not a function" ∧
    (rawFetchSuccess rawPortfolioMounted JsArr.badValue).log = [] :=
  ⟨rfl, rfl⟩

/-- C10 counterexample: formatDate of a null timestamp is not the
string "Invalid Date" — the Date constructor coerces null to epoch 0,
a valid date. -/
theorem C10_formatDate_null_counterexample :
    formatDate JsVal.null ≠ "Invalid Date" := by decide

/-- C10 (amended): formatDate never throws and always returns a string:
"Invalid Date" for an undefined timestamp and for every unparsable
string (the empty string in particular), while a null timestamp is
coerced to epoch 0 and formats as a month-and-year value ("January
1970" at UTC). -/
theorem C10_formatDate_total (s : String) (h : parseDate s = none) :
    formatDate JsVal.undef = "Invalid Date" ∧
    formatDate (JsVal.str s) = "Invalid Date" ∧
    formatDate (JsVal.str "") = "Invalid Date" ∧
    formatDate JsVal.null = "January 1970" := by
  refine ⟨rfl, ?_, by decide, by decide⟩
  simp [formatDate, jsNewDate, h]

theorem C10_formatDate_total_witness :
    parseDate "not a date" = none ∧
    formatDate (JsVal.str "not a date") = "Invalid Date" :=
  ⟨by decide, (C10_formatDate_total "not a date" (by decide)).2.1⟩
